import Mathlib

/-!
Shallow embedding of `prometheus_switchbot_exporter.py`: the advertisement
classifier (`is_switchbot_thermometer`), the payload decoder
(`parse_device_data`), the publication step (`publish_measurement`), the
discovery callback (`SwitchbotDelegate.handleDiscovery`) and the scan loop of
`main`.  Pure Python string/int operations are translated to Lean functions on
`String`/`Nat`; raised exceptions become `Except` errors; the Prometheus gauges
become an explicit `Metrics` state threaded through the pipeline; the unbounded
`while True` scan loop is modelled over a finite trace of scan windows.
-/

namespace SwitchbotExporter

/-- The manufacturer-id prefix constant `SWITCHBOT_MANUFACTURER_ID = "5900"`. -/
def SWITCHBOT_MANUFACTURER_ID : String := "5900"

/-- The service UUID constant `SWITCHBOT_SERVICE_ID`. -/
def SWITCHBOT_SERVICE_ID : String := "cba20d00-224d-11e6-9fb8-0002a5d5c51b"

/-- The static `DEVICE_NAME_MAP` dict literal from the source. -/
def DEVICE_NAME_MAP : List (String × String) :=
  [("f2:0c:69:f4:56:af", "Haustür"),
   ("ee:ed:06:15:e1:fc", "Terasse"),
   ("f2:8d:34:be:e8:e6", "Wohnzimmer"),
   ("e3:06:1c:69:f5:67", "Büro"),
   ("ce:e7:0b:2e:1a:fe", "Bad")]

/-- Python `dict` lookup (`d.get(k)`) for a dict built from a list of key/value
pairs in insertion order: a later binding of the same key overrides an earlier
one, so the lookup returns the LAST matching value, `none` when absent. -/
def dictGet (kvs : List (String × String)) (k : String) : Option String :=
  match kvs with
  | [] => none
  | (k2, v) :: rest =>
    match dictGet rest k with
    | some v2 => some v2
    | none => if k2 = k then some v else none

/-- Python `d.get(k, dflt)`. -/
def dictGetD (kvs : List (String × String)) (k : String) (dflt : String) : String :=
  (dictGet kvs k).getD dflt

/-- A bluepy `ScanEntry` as the source uses it: address, RSSI, connectable
flag, and the advertisement's scan fields.  `getScanData()` yields
`(adtype, description, value)` tuples; only description and value are ever
used, so a field is modelled as a `(description, value)` pair.  The raw
`device.scanData` dict is non-empty exactly when this list is non-empty. -/
structure ScanEntry where
  addr : String
  rssi : Int
  connectable : Bool
  scanData : List (String × String)
deriving DecidableEq

/-- `get_scan_data(device)`: the dict `{description: value}` built from
`device.getScanData()`, modelled as the field list (read through `dictGet`,
which implements the override-on-duplicate dict semantics). -/
def get_scan_data (device : ScanEntry) : List (String × String) :=
  device.scanData

/-- Python `str.startswith(pattern)` as a character-sequence test. -/
def startsWithChars : List Char → List Char → Bool
  | _, [] => true
  | [], _ :: _ => false
  | c :: cs, p :: ps => c == p && startsWithChars cs ps

/-- Python `s.startswith(p)` on strings. -/
def py_startswith (s p : String) : Bool :=
  startsWithChars s.data p.data

/-- `is_switchbot_thermometer(device)`: false when the record exposes no scan
data; false unless the `"Manufacturer"` field (defaulted to `""`) starts with
`SWITCHBOT_MANUFACTURER_ID`; false unless the `"Complete 128b Services"` field
equals `SWITCHBOT_SERVICE_ID` (a missing field compares unequal, as
`None != str` in Python); true otherwise.  The `logging` calls of the source
are operational tracing only and are not modelled. -/
def is_switchbot_thermometer (device : ScanEntry) : Bool :=
  if device.scanData.isEmpty then
    false
  else
    let scan_data := get_scan_data device
    if !(py_startswith (dictGetD scan_data "Manufacturer" "") SWITCHBOT_MANUFACTURER_ID) then
      false
    else if dictGet scan_data "Complete 128b Services" ≠ some SWITCHBOT_SERVICE_ID then
      false
    else
      true

/-- Value of one hex digit, as accepted by Python `int(_, 16)`. -/
def hexDigitVal (c : Char) : Option Nat :=
  if '0' ≤ c ∧ c ≤ '9' then some (c.toNat - '0'.toNat)
  else if 'a' ≤ c ∧ c ≤ 'f' then some (c.toNat - 'a'.toNat + 10)
  else if 'A' ≤ c ∧ c ≤ 'F' then some (c.toNat - 'A'.toNat + 10)
  else none

/-- Python `int(s, 16)` on a plain string of hex digits: the value when the
string is non-empty and all characters are hex digits, `none` (a raised
`ValueError`) otherwise.  (Python additionally tolerates surrounding
whitespace, a sign, a `0x` prefix and digit-group underscores; none of those
occur in the hex dumps bluepy produces for scan-field values, and the source
feeds this parser only slices of such dumps.) -/
def pyIntHex (cs : List Char) : Option Nat :=
  match cs with
  | [] => none
  | _ =>
    cs.foldl
      (fun acc c =>
        match acc, hexDigitVal c with
        | some a, some d => some (a * 16 + d)
        | _, _ => none)
      (some 0)

/-- Python slice `s[a:b]` for `0 ≤ a ≤ b`: the characters at positions
`a, …, b-1`, truncated at the end of the string (never an error). -/
def pySlice (s : String) (a b : Nat) : List Char :=
  (s.data.drop a).take (b - a)

/-- The `Measurement` dataclass.  The Python `temperature` field is a float
equal to `±(integral + digit/10)` with one exact decimal digit; it is modelled
exactly as `temperature_tenths : Int`, the temperature in tenths of a degree
(so Python's `1.3` is `13` here and `-80.3` is `-803`). -/
structure Measurement where
  battery : Nat
  temperature_tenths : Int
  humidity : Nat
deriving DecidableEq

/-- The exceptions `parse_device_data` can raise: `attributeError` is Python's
`AttributeError` from calling `.startswith` on `None` (absent scan field);
`malformedPayload` is the explicit `ValueError("Malformed service data …")`,
carrying the offending string; `hexValueError` is the `ValueError` raised by
`int(_, 16)` on a slice that is not a non-empty run of hex digits. -/
inductive DecodeError where
  | attributeError
  | malformedPayload (s : String)
  | hexValueError
deriving DecidableEq

/-- Body of `parse_device_data` after the `"16b Service Data"` field has been
fetched (`none` = the field was absent, so `service_data` is Python `None`).
Follows the source line by line: the `"000d"` prefix check, then
`byte2 = int(s[8:10],16)`, `battery = byte2 & 127`, the fractional nibble
`s[11:12]`, the integral byte `s[12:14]` with the inverted sign-magnitude
branch (`< 128` ⇒ negate integral and fractional; else subtract 128), and
`humidity = int(s[14:16],16) % 128`; evaluation order of the hex parses
matches the source.  Temperature is kept in tenths (see `Measurement`). -/
def decode_service_data : Option String → Except DecodeError Measurement
  | none => .error .attributeError
  | some service_data =>
    if !(py_startswith service_data "000d") then
      .error (.malformedPayload service_data)
    else
      match pyIntHex (pySlice service_data 8 10) with
      | none => .error .hexValueError
      | some byte2 =>
        let battery := byte2 &&& 127
        match pyIntHex (pySlice service_data 11 12) with
        | none => .error .hexValueError
        | some temperature_fractional =>
          match pyIntHex (pySlice service_data 12 14) with
          | none => .error .hexValueError
          | some temperature_integral =>
            let temperature_tenths : Int :=
              if temperature_integral < 128 then
                -((temperature_integral : Int) * 10 + (temperature_fractional : Int))
              else
                ((temperature_integral : Int) - 128) * 10 + (temperature_fractional : Int)
            match pyIntHex (pySlice service_data 14 16) with
            | none => .error .hexValueError
            | some hum =>
              .ok ⟨battery, temperature_tenths, hum % 128⟩

/-- `parse_device_data(device)`: fetch the `"16b Service Data"` scan field and
decode it. -/
def parse_device_data (device : ScanEntry) : Except DecodeError Measurement :=
  decode_service_data (dictGet (get_scan_data device) "16b Service Data")

/-- Gauge labels: `{device: <address>, name: <friendly name or address>}`. -/
abbrev GaugeLabel := String × String

/-- The four Prometheus gauges, each a per-label last-set value (`none` =
never set for that label combination).  Temperature is stored in tenths of a
degree, matching `Measurement`. -/
structure Metrics where
  gauge_rssi : GaugeLabel → Option Int
  gauge_battery : GaugeLabel → Option Nat
  gauge_humidity : GaugeLabel → Option Nat
  gauge_temperature : GaugeLabel → Option Int

/-- The metrics state before any publication. -/
def emptyMetrics : Metrics :=
  ⟨fun _ => none, fun _ => none, fun _ => none, fun _ => none⟩

/-- `gauge.labels(…).set(v)`: overwrite the value at one label combination. -/
def setGauge {α : Type} (g : GaugeLabel → Option α) (l : GaugeLabel) (v : α) :
    GaugeLabel → Option α :=
  fun l2 => if l2 = l then some v else g l2

/-- `DEVICE_NAME_MAP.get(addr, addr)`: the friendly name, falling back to the
raw address. -/
def deviceName (addr : String) : String :=
  dictGetD DEVICE_NAME_MAP addr addr

/-- `publish_measurement(device, measurement)`: set the four gauges at the
label `(addr, name)`. -/
def publish_measurement (device : ScanEntry) (measurement : Measurement)
    (m : Metrics) : Metrics :=
  let l : GaugeLabel := (device.addr, deviceName device.addr)
  { gauge_rssi := setGauge m.gauge_rssi l device.rssi
    gauge_battery := setGauge m.gauge_battery l measurement.battery
    gauge_humidity := setGauge m.gauge_humidity l measurement.humidity
    gauge_temperature := setGauge m.gauge_temperature l measurement.temperature_tenths }

/-- `SwitchbotDelegate.handleDiscovery(device, isNewDev, isNewData)`: classify
and, on a match, decode and publish.  An exception raised by the decoder is
not caught here and becomes the `.error` result; the `isNewDev`/`isNewData`
flags are ignored, as in the source. -/
def handleDiscovery (device : ScanEntry) (_isNewDev _isNewData : Bool)
    (m : Metrics) : Except DecodeError Metrics :=
  if is_switchbot_thermometer device then
    match parse_device_data device with
    | .error e => .error e
    | .ok measurement => .ok (publish_measurement device measurement m)
  else
    .ok m

/-- A transport-level outcome of one `scanner.scan(60)` window, beyond the
advertisements it delivered: `disconnect` is `btle.BTLEDisconnectError`,
`other` is any other transport exception. -/
inductive TransportFault where
  | disconnect
  | other
deriving DecidableEq

/-- An exception escaping one `scanner.scan(60)` call: a transport disconnect,
another transport error, or a Python exception propagating out of the
delegate's `handleDiscovery`. -/
inductive ScanException where
  | btleDisconnect
  | transportOther
  | pyError (e : DecodeError)
deriving DecidableEq

/-- One scan window: the advertisement events (device plus the two discovery
flags) delivered during the window, and an optional transport fault ending
it. -/
structure Window where
  events : List (ScanEntry × Bool × Bool)
  fault : Option TransportFault

/-- Deliver the events of a window in order through `handleDiscovery`,
threading the metrics state.  An exception raised by the delegate aborts the
scan at that event: the metrics reached so far are kept and the exception is
reported; later events of the window are not delivered. -/
def runEvents : List (ScanEntry × Bool × Bool) → Metrics → Metrics × Option DecodeError
  | [], m => (m, none)
  | (d, newDev, newData) :: rest, m =>
    match handleDiscovery d newDev newData m with
    | .error e => (m, some e)
    | .ok m2 => runEvents rest m2

/-- One `scanner.scan(60)` call: deliver the window's events; a delegate
exception propagates out of `scan` as `ScanException.pyError`; otherwise a
transport fault of the window surfaces as the corresponding exception. -/
def scan (w : Window) (m : Metrics) : Metrics × Option ScanException :=
  match runEvents w.events m with
  | (m2, some e) => (m2, some (.pyError e))
  | (m2, none) =>
    match w.fault with
    | none => (m2, none)
    | some .disconnect => (m2, some .btleDisconnect)
    | some .other => (m2, some .transportOther)

/-- The `while True` scan loop of `main`, over a finite trace of windows:
`scanner.scan(60)` is retried after a `BTLEDisconnectError` (caught and
logged); any other exception escaping `scan` propagates uncaught and the
loop — and the process — terminates with it.  The result is the final metrics
state together with the uncaught exception, if any. -/
def mainLoop : List Window → Metrics → Metrics × Option ScanException
  | [], m => (m, none)
  | w :: ws, m =>
    match scan w m with
    | (m2, none) => mainLoop ws m2
    | (m2, some .btleDisconnect) => mainLoop ws m2
    | (m2, some ex) => (m2, some ex)

end SwitchbotExporter

namespace SwitchbotExporter

/-! Concrete fixtures used by counterexamples and witnesses. -/

/-- A record that classifies as a Switchbot thermometer but carries a
malformed service-data payload (no `"000d"` prefix). -/
def badDevice : ScanEntry :=
  ⟨"aa:bb:cc:dd:ee:ff", -50, true,
   [("Manufacturer", "5900abcdef"),
    ("Complete 128b Services", SWITCHBOT_SERVICE_ID),
    ("16b Service Data", "ffff")]⟩

/-- A record that classifies as a Switchbot thermometer and decodes to
battery 100, temperature 1.3 °C (13 tenths), humidity 50. -/
def goodDevice : ScanEntry :=
  ⟨"11:22:33:44:55:66", -60, true,
   [("Manufacturer", "5900abcdef"),
    ("Complete 128b Services", SWITCHBOT_SERVICE_ID),
    ("16b Service Data", "000d000064038132")]⟩

/-- Characterisation of a successful decode: the payload passed the `"000d"`
prefix check, all four hex slices parsed, and the measurement's fields are the
battery mask, the sign-magnitude temperature and the humidity modulus computed
from them. -/
theorem decode_ok_spec (s : String) (m : Measurement)
    (h : decode_service_data (some s) = .ok m) :
    py_startswith s "000d" = true ∧
    ∃ byte2 frac integral hum,
      pyIntHex (pySlice s 8 10) = some byte2 ∧
      pyIntHex (pySlice s 11 12) = some frac ∧
      pyIntHex (pySlice s 12 14) = some integral ∧
      pyIntHex (pySlice s 14 16) = some hum ∧
      m = ⟨byte2 &&& 127,
           (if integral < 128 then -((integral : Int) * 10 + (frac : Int))
            else ((integral : Int) - 128) * 10 + (frac : Int)),
           hum % 128⟩ := by
  simp only [decode_service_data] at h
  by_cases hp : py_startswith s "000d" = true
  · rw [hp] at h
    simp only [Bool.not_true, Bool.false_eq_true, if_false] at h
    cases h2 : pyIntHex (pySlice s 8 10) with
    | none => rw [h2] at h; simp at h
    | some byte2 =>
      rw [h2] at h
      cases h3 : pyIntHex (pySlice s 11 12) with
      | none => rw [h3] at h; simp at h
      | some frac =>
        rw [h3] at h
        cases h4 : pyIntHex (pySlice s 12 14) with
        | none => rw [h4] at h; simp at h
        | some integral =>
          rw [h4] at h
          cases h5 : pyIntHex (pySlice s 14 16) with
          | none => rw [h5] at h; simp at h
          | some hum =>
            rw [h5] at h
            simp only [Except.ok.injEq] at h
            exact ⟨hp, byte2, frac, integral, hum, rfl, rfl, rfl, rfl, h.symm⟩
  · simp only [Bool.not_eq_true] at hp
    rw [hp] at h
    simp at h

end SwitchbotExporter

namespace SwitchbotExporter

/-- C1: for every service-data string accepted by the decoder, the temperature
follows the inverted sign-magnitude rule on the integral byte `s[12:14]` and
the fractional nibble `s[11:12]` (stated in tenths of a degree: the Python
value is `temperature_tenths / 10`); in particular integral byte `0x81` with
fractional nibble `3` gives `1.3` (13 tenths) and integral byte `0x50` (80)
takes the negative branch with magnitude 80 (`-80.3` = -803 tenths). -/
theorem C1_temperature_sign_magnitude :
    (∀ (s : String) (m : Measurement) (integral frac : Nat),
        decode_service_data (some s) = .ok m →
        pyIntHex (pySlice s 12 14) = some integral →
        pyIntHex (pySlice s 11 12) = some frac →
        m.temperature_tenths =
          (if integral < 128 then -((integral : Int) * 10 + (frac : Int))
           else ((integral : Int) - 128) * 10 + (frac : Int)))
    ∧ (decode_service_data (some "000d000064038132")).map Measurement.temperature_tenths
        = .ok 13
    ∧ (decode_service_data (some "000d000064035032")).map Measurement.temperature_tenths
        = .ok (-803) := by
  refine ⟨?_, rfl, rfl⟩
  intro s m integral frac hok hI hF
  obtain ⟨-, b2, fr, it, hu, hb2, hfr, hit, hhu, hm⟩ := decode_ok_spec s m hok
  rw [hI] at hit
  rw [hF] at hfr
  injection hit with hit
  injection hfr with hfr
  subst hit
  subst hfr
  rw [hm]

/-- Witness for C1: the general temperature rule applied to the concrete
accepted payload `"000d000064038132"` (integral byte 129, fractional 3). -/
theorem C1_temperature_sign_magnitude_witness :
    (⟨100, 13, 50⟩ : Measurement).temperature_tenths =
      (if (129 : Nat) < 128 then -((129 : Int) * 10 + (3 : Int))
       else ((129 : Int) - 128) * 10 + (3 : Int)) :=
  C1_temperature_sign_magnitude.1 "000d000064038132" ⟨100, 13, 50⟩ 129 3 rfl rfl rfl

/-- C3: any input string that does not start with `"000d"` makes the decoder
fail with the MalformedPayload error (no Measurement is constructed). -/
theorem C3_malformed_prefix :
    ∀ s : String, py_startswith s "000d" = false →
      decode_service_data (some s) = .error (.malformedPayload s) := by
  intro s hp
  simp [decode_service_data, hp]

/-- Witness for C3: the concrete non-`"000d"` input `"ffff"`. -/
theorem C3_malformed_prefix_witness :
    py_startswith "ffff" "000d" = false ∧
    decode_service_data (some "ffff") = .error (.malformedPayload "ffff") :=
  ⟨rfl, C3_malformed_prefix "ffff" rfl⟩

/-- C5 counterexample: the accepted payload `"000d0000ff0381ff"` (battery byte
`0xFF`, humidity byte `0xFF`) decodes successfully to battery 127 and
humidity 127, which are NOT within the claimed range `[0, 100]`. -/
theorem C5_counterexample :
    decode_service_data (some "000d0000ff0381ff") = .ok ⟨127, 13, 127⟩ ∧
    ¬((127 : Nat) ≤ 100) :=
  ⟨rfl, by decide⟩

/-- C5 amended: for every successfully decoded Measurement, battery and
humidity are integers in `[0, 127]` (not `[0, 100]`: the mask/modulus bound
them by 127 only). -/
theorem C5_amended_ranges :
    ∀ (s : String) (m : Measurement),
      decode_service_data (some s) = .ok m →
      m.battery ≤ 127 ∧ m.humidity ≤ 127 := by
  intro s m h
  obtain ⟨-, b2, fr, it, hu, -, -, -, -, hm⟩ := decode_ok_spec s m h
  subst hm
  refine ⟨Nat.and_le_right, ?_⟩
  have h2 : hu % 128 < 128 := Nat.mod_lt _ (by decide)
  simpa using Nat.le_of_lt_succ h2

/-- Witness for C5 amended: the bounds at the concrete payload
`"000d0000ff0381ff"`. -/
theorem C5_amended_ranges_witness :
    (⟨127, 13, 127⟩ : Measurement).battery ≤ 127 ∧
    (⟨127, 13, 127⟩ : Measurement).humidity ≤ 127 :=
  C5_amended_ranges "000d0000ff0381ff" ⟨127, 13, 127⟩ rfl

/-- C6: for every accepted payload, battery is the low 7 bits of the byte at
hex offset `[8:10]` and humidity is the byte at `[14:16]` reduced mod 128;
concretely, battery byte `0xFF` gives 127, `0x64` gives 100, humidity byte
`0xFF` gives 127, `0x32` gives 50. -/
theorem C6_battery_humidity_extraction :
    (∀ (s : String) (m : Measurement) (byte2 hum : Nat),
        decode_service_data (some s) = .ok m →
        pyIntHex (pySlice s 8 10) = some byte2 →
        pyIntHex (pySlice s 14 16) = some hum →
        m.battery = byte2 &&& 127 ∧ m.humidity = hum % 128)
    ∧ (decode_service_data (some "000d0000ff038132")).map Measurement.battery = .ok 127
    ∧ (decode_service_data (some "000d000064038132")).map Measurement.battery = .ok 100
    ∧ (decode_service_data (some "000d0000640381ff")).map Measurement.humidity = .ok 127
    ∧ (decode_service_data (some "000d000064038132")).map Measurement.humidity = .ok 50 := by
  refine ⟨?_, rfl, rfl, rfl, rfl⟩
  intro s m byte2 hum hok hB hH
  obtain ⟨-, b2, fr, it, hu, hb2, hfr, hit, hhu, hm⟩ := decode_ok_spec s m hok
  rw [hB] at hb2
  rw [hH] at hhu
  injection hb2 with hb2
  injection hhu with hhu
  subst hb2
  subst hhu
  rw [hm]
  exact ⟨rfl, rfl⟩

/-- Witness for C6: the general extraction rule applied to the concrete
accepted payload `"000d000064038132"` (battery byte 100, humidity byte 50). -/
theorem C6_battery_humidity_extraction_witness :
    (⟨100, 13, 50⟩ : Measurement).battery = 100 &&& 127 ∧
    (⟨100, 13, 50⟩ : Measurement).humidity = 50 % 128 :=
  C6_battery_humidity_extraction.1 "000d000064038132" ⟨100, 13, 50⟩ 100 50 rfl rfl rfl

/-- C7 counterexample: on the EMPTY service-data string the decoder raises the
distinct MalformedPayload error (the `"000d"` prefix check fails), not a
generic string-handling error as the claim states. -/
theorem C7_counterexample :
    decode_service_data (some "") = .error (.malformedPayload "") := rfl

/-- C7 amended: the decoder never checks that the service-data field is
present; an ABSENT field raises the generic AttributeError (calling
`.startswith` on `None`) and never the MalformedPayload kind, while an empty
string fails the frame-marker prefix check and raises MalformedPayload. -/
theorem C7_amended_absent_vs_empty :
    decode_service_data none = .error .attributeError ∧
    (∀ t : String, decode_service_data none ≠ .error (.malformedPayload t)) ∧
    decode_service_data (some "") = .error (.malformedPayload "") := by
  refine ⟨rfl, ?_, rfl⟩
  intro t h
  simp [decode_service_data] at h

end SwitchbotExporter

namespace SwitchbotExporter

/-- Helper: the Manufacturer check of the classifier (prefix test on the field
defaulted to `""`) succeeds exactly when the field is present and starts with
the prefix, since the empty string has no 4-character prefix. -/
theorem manufacturer_check_iff (o : Option String) :
    py_startswith (o.getD "") "5900" = true ↔
      ∃ mfr, o = some mfr ∧ py_startswith mfr "5900" = true := by
  cases o with
  | none =>
    simp only [Option.getD_none]
    constructor
    · intro h
      exact absurd h (by decide)
    · rintro ⟨mfr, h, -⟩
      cases h
  | some mfr => simp

/-- C2: the classifier returns true iff the record exposes scan fields, the
`"Manufacturer"` field is present and starts with `"5900"`, and the 128-bit
service UUID field equals the Switchbot UUID exactly; in particular a record
with no scan fields is rejected. -/
theorem C2_classify_iff :
    ∀ d : ScanEntry,
      (is_switchbot_thermometer d = true ↔
        d.scanData ≠ [] ∧
        (∃ mfr, dictGet d.scanData "Manufacturer" = some mfr ∧
          py_startswith mfr "5900" = true) ∧
        dictGet d.scanData "Complete 128b Services" =
          some "cba20d00-224d-11e6-9fb8-0002a5d5c51b")
      ∧ (d.scanData = [] → is_switchbot_thermometer d = false) := by
  intro d
  rcases hd : d.scanData with - | ⟨p, tl⟩
  · constructor
    · simp [is_switchbot_thermometer, hd]
    · intro _
      simp [is_switchbot_thermometer, hd]
  · constructor
    · rw [← manufacturer_check_iff]
      by_cases hm : py_startswith ((dictGet (p :: tl) "Manufacturer").getD "") "5900" = true
      · by_cases hs : dictGet (p :: tl) "Complete 128b Services" =
            some "cba20d00-224d-11e6-9fb8-0002a5d5c51b"
        · simp [is_switchbot_thermometer, get_scan_data, dictGetD,
                SWITCHBOT_MANUFACTURER_ID, SWITCHBOT_SERVICE_ID, hd, hm, hs]
        · simp [is_switchbot_thermometer, get_scan_data, dictGetD,
                SWITCHBOT_MANUFACTURER_ID, SWITCHBOT_SERVICE_ID, hd, hm, hs]
      · simp [is_switchbot_thermometer, get_scan_data, dictGetD,
              SWITCHBOT_MANUFACTURER_ID, SWITCHBOT_SERVICE_ID, hd, hm]
    · intro h
      exact absurd h (by simp)

/-- Witness for C2: the iff evaluated at the concrete matching record
`goodDevice` and the no-scan-fields direction at an empty record. -/
theorem C2_classify_iff_witness :
    (is_switchbot_thermometer goodDevice = true ↔
      goodDevice.scanData ≠ [] ∧
      (∃ mfr, dictGet goodDevice.scanData "Manufacturer" = some mfr ∧
        py_startswith mfr "5900" = true) ∧
      dictGet goodDevice.scanData "Complete 128b Services" =
        some "cba20d00-224d-11e6-9fb8-0002a5d5c51b")
    ∧ (goodDevice.scanData = [] → is_switchbot_thermometer goodDevice = false) :=
  C2_classify_iff goodDevice

end SwitchbotExporter

namespace SwitchbotExporter

/-- C4 counterexample: a window delivering a classified-but-malformed record
followed by a perfectly good record makes the scan loop terminate with the
uncaught MalformedPayload exception, with no gauge set — whereas the good
record alone would have set the battery gauge.  So a decode failure DOES
terminate the loop and subsequent advertisements are NOT processed. -/
theorem C4_counterexample :
    mainLoop [⟨[(badDevice, true, true), (goodDevice, true, true)], none⟩] emptyMetrics
      = (emptyMetrics, some (.pyError (.malformedPayload "ffff")))
    ∧ (mainLoop [⟨[(goodDevice, true, true)], none⟩] emptyMetrics).1.gauge_battery
        ("11:22:33:44:55:66", "11:22:33:44:55:66") = some 100
    ∧ (mainLoop [⟨[(badDevice, true, true), (goodDevice, true, true)], none⟩]
        emptyMetrics).1.gauge_battery
        ("11:22:33:44:55:66", "11:22:33:44:55:66") = none :=
  ⟨rfl, rfl, rfl⟩

/-- C4 amended: when a record classifies as the target sensor but its decode
fails, the raised exception propagates uncaught out of the discovery handler
and the scan call: no measurement is published for that record (the metrics
state is returned unchanged), but the loop — which catches only transport
disconnects — terminates with the exception, so subsequent advertisements and
windows are not processed. -/
theorem C4_amended_decode_failure_fatal :
    ∀ (d : ScanEntry) (newDev newData : Bool) (e : DecodeError)
      (rest : List (ScanEntry × Bool × Bool)) (fault : Option TransportFault)
      (ws : List Window) (m : Metrics),
      is_switchbot_thermometer d = true →
      parse_device_data d = .error e →
      mainLoop (⟨(d, newDev, newData) :: rest, fault⟩ :: ws) m
        = (m, some (.pyError e)) := by
  intro d newDev newData e rest fault ws m hcl hdec
  have hstep : handleDiscovery d newDev newData m = .error e := by
    simp [handleDiscovery, hcl, hdec]
  simp [mainLoop, scan, runEvents, hstep]

/-- Witness for C4 amended: the fatal propagation at the concrete malformed
record `badDevice`. -/
theorem C4_amended_decode_failure_fatal_witness :
    mainLoop [⟨[(badDevice, true, true)], none⟩] emptyMetrics
      = (emptyMetrics, some (.pyError (.malformedPayload "ffff"))) :=
  C4_amended_decode_failure_fatal badDevice true true (.malformedPayload "ffff")
    [] none [] emptyMetrics rfl rfl

/-- C8: a transport disconnect ending a scan window is caught and the loop
proceeds to the next window; the loop never exits with a disconnect; any other
transport error propagates uncaught and ends the loop. -/
theorem C8_disconnect_recovery :
    (∀ (events : List (ScanEntry × Bool × Bool)) (m m2 : Metrics) (ws : List Window),
        runEvents events m = (m2, none) →
        mainLoop (⟨events, some .disconnect⟩ :: ws) m = mainLoop ws m2)
    ∧ (∀ (ws : List Window) (m : Metrics),
        (mainLoop ws m).2 ≠ some .btleDisconnect)
    ∧ (∀ (events : List (ScanEntry × Bool × Bool)) (m m2 : Metrics) (ws : List Window),
        runEvents events m = (m2, none) →
        mainLoop (⟨events, some .other⟩ :: ws) m = (m2, some .transportOther)) := by
  refine ⟨?_, ?_, ?_⟩
  · intro events m m2 ws hre
    simp [mainLoop, scan, hre]
  · intro ws
    induction ws with
    | nil => intro m; simp [mainLoop]
    | cons w ws ih =>
      intro m
      rcases hsw : scan w m with ⟨m2, ex⟩
      rcases ex with - | ex
      · simp [mainLoop, hsw]
        exact ih m2
      · rcases ex with - | - | e
        · simp [mainLoop, hsw]
          exact ih m2
        · simp [mainLoop, hsw]
        · simp [mainLoop, hsw]
  · intro events m m2 ws hre
    simp [mainLoop, scan, hre]

/-- Witness for C8: the disconnect-recovery equation at an empty window. -/
theorem C8_disconnect_recovery_witness :
    mainLoop [⟨[], some .disconnect⟩] emptyMetrics = mainLoop [] emptyMetrics :=
  C8_disconnect_recovery.1 [] emptyMetrics emptyMetrics [] rfl

/-- C9: on an advertisement whose record does not classify as a Switchbot
thermometer, the discovery handler raises no error and returns the metrics
state unchanged (no decode result is used, no gauge is set), regardless of the
new-device / new-data flags. -/
theorem C9_nonmatching_no_effect :
    ∀ (d : ScanEntry) (newDev newData : Bool) (m : Metrics),
      is_switchbot_thermometer d = false →
      handleDiscovery d newDev newData m = .ok m := by
  intro d newDev newData m h
  simp [handleDiscovery, h]

/-- Witness for C9: a record with no scan fields leaves the empty metrics
state untouched. -/
theorem C9_nonmatching_no_effect_witness :
    is_switchbot_thermometer ⟨"de:ad:be:ef:00:01", -70, false, []⟩ = false ∧
    handleDiscovery ⟨"de:ad:be:ef:00:01", -70, false, []⟩ true true emptyMetrics
      = .ok emptyMetrics :=
  ⟨rfl, C9_nonmatching_no_effect ⟨"de:ad:be:ef:00:01", -70, false, []⟩ true true
    emptyMetrics rfl⟩

/-- C10: classifier and decoder are deterministic pure functions of their
stated inputs: the classification result depends only on the record's scan
fields, and the decode result depends only on the `"16b Service Data"` field
value — two records agreeing there are classified/decoded identically, and
neither function takes or returns any mutable state (both are plain functions
in this embedding; the source's only side effect in them is diagnostic
logging). -/
theorem C10_purity :
    (∀ d1 d2 : ScanEntry, d1.scanData = d2.scanData →
        is_switchbot_thermometer d1 = is_switchbot_thermometer d2)
    ∧ (∀ d1 d2 : ScanEntry,
        dictGet (get_scan_data d1) "16b Service Data"
          = dictGet (get_scan_data d2) "16b Service Data" →
        parse_device_data d1 = parse_device_data d2) := by
  constructor
  · intro d1 d2 h
    simp [is_switchbot_thermometer, get_scan_data, h]
  · intro d1 d2 h
    simp [parse_device_data, h]

/-- Witness for C10: a record with the same scan fields as `goodDevice` but a
different address, RSSI and connectability classifies and decodes
identically. -/
theorem C10_purity_witness :
    is_switchbot_thermometer goodDevice
      = is_switchbot_thermometer ⟨"77:88:99:aa:bb:cc", -90, false, goodDevice.scanData⟩
    ∧ parse_device_data goodDevice
      = parse_device_data ⟨"77:88:99:aa:bb:cc", -90, false, goodDevice.scanData⟩ :=
  ⟨C10_purity.1 goodDevice ⟨"77:88:99:aa:bb:cc", -90, false, goodDevice.scanData⟩ rfl,
   C10_purity.2 goodDevice ⟨"77:88:99:aa:bb:cc", -90, false, goodDevice.scanData⟩ rfl⟩

end SwitchbotExporter

namespace SwitchbotExporter

/-- Witness for C7 amended: the never-MalformedPayload-on-absent-field part at
a concrete payload string. -/
theorem C7_amended_absent_vs_empty_witness :
    decode_service_data none ≠ .error (.malformedPayload "000d") :=
  C7_amended_absent_vs_empty.2.1 "000d"

end SwitchbotExporter
